import Mathlib

/-!
Verification of the Crossy Road clone (`crossyRoad.py`).

This file gives a shallow embedding of the game's simulation core and proves
properties about it.  Modelling conventions:

* Python floats are modelled exactly over `ℚ` (all constants appearing in the
  source — `0.3`, `0.5`, `2/3` of the screen height, … — are exact decimals).
* Python ints are modelled as `ℤ` (or `ℕ` for frame counters).
* Randomness (`random.choices`, `random.uniform`, `random.randint`,
  `random.choice`) is modelled by explicit oracle arguments: every concrete
  execution of the Python program corresponds to one oracle assignment, and
  universally quantified theorems hold for every oracle.
* Rendering-only data (colors, grass-lane flowers, the `draw` methods, the
  unused `Player.speed`/`Player.size` attributes and the never-written
  `flashTimer`) and the pygame screen/clock handles are omitted: no game-logic
  path reads them.
* The high-score file is modelled as `Option (List ℕ)` — `none` for a missing
  file, otherwise the file's content as its list of character codes.
-/

namespace CrossyRoad

/-! ### Game constants (module-level constants of `crossyRoad.py`) -/

def SCREEN_WIDTH : ℤ := 800

def SCREEN_HEIGHT : ℤ := 600

def GRID_SIZE : ℤ := 50

def PLAYER_SIZE : ℤ := 40

/-! ### Player (`class Player`) -/

structure Player where
  x : ℚ
  y : ℚ
  gridX : ℤ
  gridY : ℤ
  targetX : ℚ
  targetY : ℚ
  moving : Bool
  dead : Bool
  moveCooldown : ℕ
  deriving DecidableEq, Repr

/-- `Player.__init__(x, y)`: grid coordinates are `x // GRID_SIZE` (Python
floor division), the continuous and target positions start at `(x, y)`. -/
def playerNew (x y : ℤ) : Player :=
  { x := (x : ℚ), y := (y : ℚ)
    gridX := Int.fdiv x GRID_SIZE, gridY := Int.fdiv y GRID_SIZE
    targetX := (x : ℚ), targetY := (y : ℚ)
    moving := false, dead := false, moveCooldown := 0 }

/-- `Player.move(dx, dy)`: rejected as a no-op if animating, dead, or within
the post-move cooldown; otherwise grid coordinates update immediately, the
target is the new cell's center, `gridX`/`targetX` are clamped to the screen,
and the animation flag and cooldown are set. -/
def playerMove (p : Player) (dx dy : ℤ) : Player :=
  if p.moving ∨ p.dead ∨ 0 < p.moveCooldown then p
  else
    let gX := p.gridX + dx
    let gY := p.gridY + dy
    let tX : ℚ := (gX * GRID_SIZE + GRID_SIZE / 2 : ℤ)
    let tY : ℚ := (gY * GRID_SIZE + GRID_SIZE / 2 : ℤ)
    { p with
      gridX := max 0 (min (SCREEN_WIDTH / GRID_SIZE - 1) gX)
      gridY := gY
      targetX := max ((GRID_SIZE / 2 : ℤ) : ℚ) (min ((SCREEN_WIDTH - GRID_SIZE / 2 : ℤ) : ℚ) tX)
      targetY := tY
      moving := true
      moveCooldown := 5 }

/-- `Player.update()`: decrement the cooldown; while `moving`, move 0.3 of the
remaining distance toward the target each frame and snap (clearing `moving`)
once within 2 of the target on both axes. -/
def playerUpdate (p : Player) : Player :=
  let cd := if 0 < p.moveCooldown then p.moveCooldown - 1 else p.moveCooldown
  if p.moving then
    let dx := p.targetX - p.x
    let dy := p.targetY - p.y
    if |dx| < 2 ∧ |dy| < 2 then
      { p with moveCooldown := cd, x := p.targetX, y := p.targetY, moving := false }
    else
      { p with moveCooldown := cd, x := p.x + dx * (3/10), y := p.y + dy * (3/10) }
  else
    { p with moveCooldown := cd }

/-- `Player.die()`. -/
def playerDie (p : Player) : Player :=
  { p with dead := true }

/-! ### Obstacles (`class Vehicle`, `class Log`)

Vehicles and logs have the same fields and the same motion (`x += speed`);
they differ only in their (randomized) size ranges and in role.  Colors are
rendering-only and omitted. -/

structure Obstacle where
  x : ℚ
  y : ℚ
  speed : ℚ
  width : ℚ
  height : ℚ
  deriving DecidableEq, Repr

/-! ### Lanes (`class Lane` and subclasses)

One unified structure with a type tag models the three subclasses.  Grass
lanes do not read `direction`/`difficultyMultiplier` (the Python classes do
not even define them); they are stored as `1` there. -/

inductive LaneType where
  | grass
  | road
  | water
  deriving DecidableEq, Repr

structure Lane where
  y : ℚ
  type : LaneType
  obstacles : List Obstacle
  spawnTimer : ℕ
  spawnInterval : ℕ
  direction : ℤ
  difficultyMultiplier : ℚ
  deriving DecidableEq, Repr

/-- `GrassLane(y)`: no obstacles, base-class spawn timer/interval. -/
def grassLane (y : ℚ) : Lane :=
  { y := y, type := .grass, obstacles := [], spawnTimer := 0, spawnInterval := 60
    direction := 1, difficultyMultiplier := 1 }

/-- Random values consumed by one road/water lane `update()` spawn:
`random.uniform` base speed and `random.randint` width. -/
structure SpawnRand where
  speedBase : ℚ
  width : ℚ
  deriving Repr

/-- `RoadLane.update()` / `WaterLane.update()`: advance the spawn timer; at
the interval, reset it and append a new obstacle off-screen on the side the
lane's direction enters from, with speed `uniform(min,max) * difficulty *
direction`; then move every obstacle by its speed and drop the ones that are
fully off-screen.  Grass lanes are static (`Lane.update` is `pass`).  The
newly spawned obstacle is also moved this same frame, as in the source (it is
appended before the movement loop iterates over a copy of the list). -/
def laneUpdate (r : SpawnRand) (l : Lane) : Lane :=
  match l.type with
  | .grass => l
  | .road =>
    let t := l.spawnTimer + 1
    let spawned :=
      if l.spawnInterval ≤ t then
        (0, l.obstacles ++
          [{ x := if l.direction = 1 then (-50 : ℚ) else ((SCREEN_WIDTH : ℚ) + 50)
             y := l.y
             speed := r.speedBase * l.difficultyMultiplier * (l.direction : ℚ)
             width := r.width, height := 30 }])
      else (t, l.obstacles)
    { l with
      spawnTimer := spawned.1
      obstacles :=
        (spawned.2.map (fun v => { v with x := v.x + v.speed })).filter
          (fun v => ¬(v.x < -100 ∨ (SCREEN_WIDTH : ℚ) + 100 < v.x)) }
  | .water =>
    let t := l.spawnTimer + 1
    let spawned :=
      if l.spawnInterval ≤ t then
        (0, l.obstacles ++
          [{ x := if l.direction = 1 then (-100 : ℚ) else ((SCREEN_WIDTH : ℚ) + 100)
             y := l.y
             speed := r.speedBase * l.difficultyMultiplier * (l.direction : ℚ)
             width := r.width, height := 35 }])
      else (t, l.obstacles)
    { l with
      spawnTimer := spawned.1
      obstacles :=
        (spawned.2.map (fun g => { g with x := g.x + g.speed })).filter
          (fun g => ¬(g.x < -200 ∨ (SCREEN_WIDTH : ℚ) + 200 < g.x)) }

/-! ### Particles (`class Particle`) -/

structure Particle where
  x : ℚ
  y : ℚ
  vx : ℚ
  vy : ℚ
  lifetime : ℤ
  size : ℕ
  deriving DecidableEq, Repr

/-- `Particle.update()`: integrate position, apply gravity `0.5` to `vy`
(after the position update, as in the source), decrement lifetime. -/
def particleUpdate (p : Particle) : Particle :=
  { p with x := p.x + p.vx, y := p.y + p.vy, vy := p.vy + 1/2
           lifetime := p.lifetime - 1 }

/-- Random values consumed per particle of a death burst. -/
structure PartRand where
  vx : ℚ
  vy : ℚ
  size : ℕ
  deriving Repr

/-- `Game.createDeathParticles()`: 20 particles at the player's position with
random velocities, lifetime 30. -/
def deathBurst (o : ℕ → PartRand) (p : Player) : List Particle :=
  (List.range 20).map fun i =>
    { x := p.x, y := p.y, vx := (o i).vx, vy := (o i).vy, lifetime := 30
      size := (o i).size }

/-! ### Collision engine (`Game.getLaneAtY`, `Game.checkVehicleCollision`,
`Game.checkLogCollision`, `Game.checkCollisions`) -/

/-- `Game.getLaneAtY(y)`: the first lane in list order whose closed interval
`[lane.y, lane.y + GRID_SIZE]` contains `y` (`laneTop <= y <= laneBottom` in
the source), `None` if there is no such lane. -/
def getLaneAtY (lanes : List Lane) (y : ℚ) : Option Lane :=
  lanes.find? fun l => decide (l.y ≤ y) && decide (y ≤ l.y + (GRID_SIZE : ℚ))

/-- `Game.checkVehicleCollision(vehicle)`: AABB test of the player's
square hitbox of radius `PLAYER_SIZE // 2 - 5 = 15` against the vehicle's box
padded by 5 on each side. -/
def checkVehicleCollision (p : Player) (v : Obstacle) : Bool :=
  decide (v.x - 5 < p.x + 15) && decide (p.x - 15 < v.x + v.width + 5) &&
  decide (v.y - 5 < p.y + 15) && decide (p.y - 15 < v.y + v.height + 5)

/-- `Game.checkLogCollision(log)`: the player's center point must be inside
the log's full rectangle. -/
def checkLogCollision (p : Player) (l : Obstacle) : Bool :=
  decide (l.x ≤ p.x) && decide (p.x ≤ l.x + l.width) &&
  decide (l.y ≤ p.y) && decide (p.y ≤ l.y + l.height)

/-! ### Game session state (`class Game`) -/

structure GameState where
  startScreen : Bool
  playing : Bool
  gameOver : Bool
  score : ℤ
  highScore : ℤ
  bestProgress : ℤ
  cameraY : ℚ
  player : Player
  lanes : List Lane
  particles : List Particle
  difficultyMultiplier : ℚ
  deathAnimationTimer : ℕ
  deriving Repr

/-- `Game.checkCollisions()`: no-op while already dead; locate the lane at the
player's continuous y; on a road lane, die (with a particle burst) at the
first overlapping vehicle; on a water lane, ride the first log under the
player's center (`x += log.speed`, `gridX = int(x // GRID_SIZE)`), dying if
carried past the screen edges, and drown if no log is under the player;
grass (or no lane found) is a no-op. -/
def checkCollisions (o : ℕ → PartRand) (g : GameState) : GameState :=
  if g.player.dead then g
  else
    match getLaneAtY g.lanes g.player.y with
    | none => g
    | some lane =>
      match lane.type with
      | .road =>
        if lane.obstacles.any (fun v => checkVehicleCollision g.player v) then
          { g with player := playerDie g.player
                   particles := g.particles ++ deathBurst o g.player }
        else g
      | .water =>
        match lane.obstacles.find? (fun lg => checkLogCollision g.player lg) with
        | some log =>
          let x' := g.player.x + log.speed
          let p' := { g.player with x := x', gridX := ⌊x' / (GRID_SIZE : ℚ)⌋ }
          if x' < ((PLAYER_SIZE / 2 : ℤ) : ℚ) ∨ ((SCREEN_WIDTH - PLAYER_SIZE / 2 : ℤ) : ℚ) < x' then
            { g with player := playerDie p'
                     particles := g.particles ++ deathBurst o p' }
          else
            { g with player := p' }
        | none =>
          { g with player := playerDie g.player
                   particles := g.particles ++ deathBurst o g.player }
      | .grass => g

/-! ### Lane generation (`Game.initializeLanes`, `Game.generateNewLanes`) -/

/-- Random values consumed by one lane-generation step: the `random()` draw
feeding `random.choices` and the new lane's constructor randomness
(direction and spawn interval). -/
structure GenRand where
  u : ℚ
  dir : ℤ
  interval : ℕ
  deriving Repr

/-- `bisect.bisect_right` on the cumulative weights, as performed by
`random.choices`: the least index `i` with `target < cum[i]`. -/
def pickIndex (ws : List ℚ) (target : ℚ) : ℕ :=
  match ws with
  | [] => 0
  | w :: rest => if target < w then 0 else pickIndex rest (target - w) + 1

/-- `random.choices(['grass','road','water'], weights=ws, k=1)[0]` with the
uniform draw `u ∈ [0,1)`: pick by `bisect_right(cum_weights, u * total)`
(clamped to the last index, as `bisect` is called with `hi = len - 1`). -/
def chooseLaneType (ws : List ℚ) (u : ℚ) : LaneType :=
  match min (pickIndex ws (u * ws.sum)) 2 with
  | 0 => .grass
  | 1 => .road
  | _ => .water

/-- Build the lane a generation step appends: `GrassLane(y)`,
`RoadLane(y, dm)` or `WaterLane(y, dm)`, with the constructor's random
direction and spawn interval supplied by the oracle. -/
def mkLane (y : ℚ) (t : LaneType) (r : GenRand) (dm : ℚ) : Lane :=
  match t with
  | .grass => grassLane y
  | .road =>
    { y := y, type := .road, obstacles := [], spawnTimer := 0
      spawnInterval := r.interval, direction := r.dir, difficultyMultiplier := dm }
  | .water =>
    { y := y, type := .water, obstacles := [], spawnTimer := 0
      spawnInterval := r.interval, direction := r.dir, difficultyMultiplier := dm }

/-- `Game.initializeLanes()`: three grass lanes at the bottom, then 20 lanes
drawn with the fixed weights `[2, 3, 2]` (no anti-repetition adjustment is
applied here). -/
def initLanes (dm : ℚ) (gen : ℕ → GenRand) : List Lane :=
  ((List.range 3).map fun i => grassLane ((SCREEN_HEIGHT : ℚ) - i * (GRID_SIZE : ℚ)))
    ++ ((List.range 20).map fun i =>
      mkLane ((SCREEN_HEIGHT : ℚ) - (((i : ℕ) : ℚ) + 3) * (GRID_SIZE : ℚ))
        (chooseLaneType [2, 3, 2] (gen i).u) (gen i) dm)

/-- The `[lane.type for lane in self.lanes[-3:]] if len(self.lanes) >= 3
else []` expression of `generateNewLanes`. -/
def recentTypes (lanes : List Lane) : List LaneType :=
  if 3 ≤ lanes.length then (lanes.drop (lanes.length - 3)).map Lane.type else []

/-- The per-draw weight adjustment of `generateNewLanes`: base weights
`[2, 3, 2]`; road's weight drops to 1 if at least 2 of the last 3 lanes are
road, and likewise for water. -/
def adjustedWeights (recent : List LaneType) : List ℚ :=
  [2,
   if 2 ≤ recent.count LaneType.road then 1 else 3,
   if 2 ≤ recent.count LaneType.water then 1 else 2]

/-- The body of the `while highestY > self.cameraY - GRID_SIZE * 5` loop of
`generateNewLanes`, written with explicit fuel; the guard is re-checked every
iteration, so any sufficiently large fuel computes the loop exactly (each
iteration lowers `highestY` by `GRID_SIZE`, so the loop always terminates). -/
def genLoop (gen : ℕ → GenRand) (camY dm : ℚ) :
    ℕ → ℕ → ℚ → List Lane → List Lane
  | 0, _, _, lanes => lanes
  | fuel + 1, k, hY, lanes =>
    if camY - (GRID_SIZE : ℚ) * 5 < hY then
      let newY := hY - (GRID_SIZE : ℚ)
      let t := chooseLaneType (adjustedWeights (recentTypes lanes)) (gen k).u
      genLoop gen camY dm fuel (k + 1) newY (lanes ++ [mkLane newY t (gen k) dm])
    else lanes

/-- `min(lane.y for lane in self.lanes) if self.lanes else 0`. -/
def laneMinY (lanes : List Lane) : ℚ :=
  match lanes.map Lane.y with
  | [] => 0
  | y :: ys => ys.foldl min y

/-- Fuel that over-approximates the number of iterations of the generation
loop (the loop runs `⌈(hY - (camY - 250)) / 50⌉` times when positive). -/
def genFuel (hY camY : ℚ) : ℕ :=
  (⌈(hY - (camY - (GRID_SIZE : ℚ) * 5)) / (GRID_SIZE : ℚ)⌉).toNat + 1

/-- `Game.generateNewLanes()` as a function of the lane list, camera and
difficulty: generate lanes one row above the current top while the top is not
far enough above the camera, adjusting weights against repetition. -/
def generateNewLanesList (gen : ℕ → GenRand) (camY dm : ℚ) (lanes : List Lane) :
    List Lane :=
  let hY := laneMinY lanes
  genLoop gen camY dm (genFuel hY camY) 0 hY lanes

/-! ### High-score persistence (`Game.loadHighScore`, `Game.saveHighScore`)

The file is `Option (List ℕ)`: `none` when missing, otherwise its content as
character codes.  `pythonInt` models `int(...)` applied to a string,
restricted to an optional ASCII sign followed by ASCII digits (surrounding
whitespace and underscore digit grouping, which CPython also accepts, are not
modelled — no string this development reasons about contains them). -/

def isDigitCode (c : ℕ) : Bool :=
  decide (48 ≤ c) && decide (c ≤ 57)

/-- Value of a most-significant-first digit-code list. -/
def digitsVal (cs : List ℕ) : ℕ :=
  cs.foldl (fun a c => a * 10 + (c - 48)) 0

/-- Parse a nonempty all-digit code list, `none` otherwise. -/
def parseNatCodes (cs : List ℕ) : Option ℕ :=
  if cs ≠ [] ∧ cs.all isDigitCode then some (digitsVal cs) else none

/-- Model of Python `int(s)` on the character codes of `s`: an optional
ASCII sign (`'-'` is 45, `'+'` is 43) followed by a nonempty digit run. -/
def pythonInt (cs : List ℕ) : Option ℤ :=
  match cs with
  | [] => none
  | c :: rest =>
    if c = 45 then (parseNatCodes rest).map fun n => -(n : ℤ)
    else if c = 43 then (parseNatCodes rest).map fun n => (n : ℤ)
    else (parseNatCodes (c :: rest)).map fun n => (n : ℤ)

/-- Character codes of Python `str(n)` for a natural number. -/
def natCodes (n : ℕ) : List ℕ :=
  if n = 0 then [48] else (Nat.digits 10 n).reverse.map fun d => d + 48

/-- Character codes of Python `str(n)` for an integer: a `'-'` (code 45)
before the digits when negative. -/
def intCodes (n : ℤ) : List ℕ :=
  if n < 0 then 45 :: natCodes n.natAbs else natCodes n.toNat

/-- `Game.loadHighScore()`: `int` of the file content, with any failure
(missing file or parse error) defaulting to 0. -/
def loadHighScore (file : Option (List ℕ)) : ℤ :=
  match file with
  | none => 0
  | some cs => (pythonInt cs).getD 0

/-- `Game.saveHighScore()` on a successful write: the file now holds
`str(highScore)` (a failed write leaves the file unchanged and is swallowed;
the round-trip claim is about the successful path). -/
def saveHighScore (highScore : ℤ) : Option (List ℕ) :=
  some (intCodes highScore)

/-! ### The per-frame update (`Game.update`) and session transitions -/

/-- Oracle for all randomness consumed during one frame: per-lane spawn draws
(indexed by the lane's position in the list), per-iteration generation draws,
and death-burst particle draws. -/
structure FrameOracle where
  spawn : ℕ → SpawnRand
  gen : ℕ → GenRand
  part : ℕ → PartRand

/-- An arbitrary fixed oracle (every draw is the same benign value; the
`u = 0` choice draw selects grass). -/
def oracle0 : FrameOracle :=
  { spawn := fun _ => { speedBase := 0, width := 60 }
    gen := fun _ => { u := 0, dir := 1, interval := 60 }
    part := fun _ => { vx := 0, vy := 0, size := 3 } }

/-- `self.player.update()` step. -/
def stepPlayer (g : GameState) : GameState :=
  { g with player := playerUpdate g.player }

/-- `Game.updateCamera()`: the target is the player's y minus two-thirds of
the screen height (`SCREEN_HEIGHT * 2/3 = 400`); the camera moves only if the
target is strictly above (smaller than) the current camera y. -/
def stepCamera (g : GameState) : GameState :=
  { g with cameraY :=
      if g.player.y - (SCREEN_HEIGHT : ℚ) * (2/3) < g.cameraY then
        g.player.y - (SCREEN_HEIGHT : ℚ) * (2/3)
      else g.cameraY }

/-- `for lane in self.lanes: lane.update()` step. -/
def stepLanes (o : FrameOracle) (g : GameState) : GameState :=
  { g with lanes := g.lanes.mapIdx fun i l => laneUpdate (o.spawn i) l }

/-- The progress/score block of `Game.update`: when the player's `gridY`
drops below `bestProgress`, update it, recompute the score as
`abs(bestProgress) * 10`, and bump the difficulty at every 10th row. -/
def stepProgress (g : GameState) : GameState :=
  if g.player.gridY < g.bestProgress then
    let bp := g.player.gridY
    { g with
      bestProgress := bp
      score := |bp| * 10
      difficultyMultiplier :=
        if bp.natAbs % 10 = 0 then g.difficultyMultiplier + 1/10
        else g.difficultyMultiplier }
  else g

/-- `Game.generateNewLanes()` step. -/
def stepGen (o : FrameOracle) (g : GameState) : GameState :=
  { g with lanes := generateNewLanesList o.gen g.cameraY g.difficultyMultiplier g.lanes }

/-- `Game.cleanupOldLanes()`: drop lanes at or below
`cameraY + SCREEN_HEIGHT + GRID_SIZE * 3`. -/
def stepCleanup (g : GameState) : GameState :=
  let keep := fun (l : Lane) =>
    decide (l.y < g.cameraY + (SCREEN_HEIGHT : ℚ) + (GRID_SIZE : ℚ) * 3)
  { g with lanes := g.lanes.filter keep }

/-- `Game.checkCollisions()` step. -/
def stepCollisions (o : FrameOracle) (g : GameState) : GameState :=
  checkCollisions o.part g

/-- The particle-update block: update every particle, then remove the ones
whose lifetime has run out. -/
def stepParticles (g : GameState) : GameState :=
  { g with particles :=
      (g.particles.map particleUpdate).filter fun p => decide (0 < p.lifetime) }

/-- The death-zone block: the player dies upon falling below
`cameraY + SCREEN_HEIGHT + GRID_SIZE`. -/
def stepDeathZone (g : GameState) : GameState :=
  if g.cameraY + (SCREEN_HEIGHT : ℚ) + (GRID_SIZE : ℚ) < g.player.y then
    { g with player := playerDie g.player }
  else g

/-- `Game.endGame()`: enter game over; a strictly better score becomes the
new high score (the accompanying `saveHighScore` file write is modelled by
`saveHighScore` separately). -/
def endGame (g : GameState) : GameState :=
  { g with gameOver := true, playing := false
           highScore := if g.highScore < g.score then g.score else g.highScore }

/-- The death-handling block: while dead, advance the death-animation timer
and end the game once it passes 60 frames. -/
def stepDeath (g : GameState) : GameState :=
  if g.player.dead then
    let g' := { g with deathAnimationTimer := g.deathAnimationTimer + 1 }
    if 60 < g'.deathAnimationTimer then endGame g' else g'
  else g

/-- `Game.update()`: early return unless in the playing state; otherwise the
frame pipeline in source order — player, camera, lanes, progress/score, lane
generation, lane cleanup, collisions, particles, death zone, death timer. -/
def gameUpdate (o : FrameOracle) (g : GameState) : GameState :=
  if ¬g.playing ∨ g.gameOver then g
  else
    stepDeath (stepDeathZone (stepParticles (stepCollisions o
      (stepCleanup (stepGen o (stepProgress (stepLanes o
        (stepCamera (stepPlayer g)))))))))

/-- `Game.restart()`: full reset of the session—score, progress, camera,
difficulty, player, particles, death timer, lane field, state tags—except the
in-memory `highScore`, which is untouched. -/
def restart (gen : ℕ → GenRand) (g : GameState) : GameState :=
  { g with
    playing := true, gameOver := false, startScreen := false
    score := 0, bestProgress := 0, cameraY := 0
    difficultyMultiplier := 1
    player := playerNew (SCREEN_WIDTH / 2) (SCREEN_HEIGHT - GRID_SIZE * 2)
    particles := []
    deathAnimationTimer := 0
    lanes := initLanes 1 gen }

/-- `Game.__init__`: start screen, zeroed session, high score loaded from the
file, player at the bottom center, initial lane field. -/
def initGame (file : Option (List ℕ)) (gen : ℕ → GenRand) : GameState :=
  { startScreen := true, playing := false, gameOver := false
    score := 0, highScore := loadHighScore file, bestProgress := 0
    cameraY := 0
    player := playerNew (SCREEN_WIDTH / 2) (SCREEN_HEIGHT - GRID_SIZE * 2)
    lanes := initLanes 1 gen
    particles := []
    difficultyMultiplier := 1
    deathAnimationTimer := 0 }

/-- `Player.move` lifted to the game, as invoked from `handleEvents` while
playing. -/
def gameMove (g : GameState) (dx dy : ℤ) : GameState :=
  { g with player := playerMove g.player dx dy }

/-! ### Lane-field geometry

In every reachable lane field the lanes sit on consecutive rows in
descending-`y` list order: `initializeLanes` builds them that way,
`generateNewLanes` appends each new lane exactly one row above the current
top, and `cleanupOldLanes` removes a prefix (the bottom-most rows) of the
descending list.  `descending50` captures this shape. -/

def descending50 : List Lane → Bool
  | [] => true
  | [_] => true
  | a :: b :: rest => decide (b.y = a.y - (GRID_SIZE : ℚ)) && descending50 (b :: rest)

/-- The effect of `checkCollisions` on the player depends only on the player
and on the lane found at the player's y. -/
def collidePlayer (p : Player) (ol : Option Lane) : Player :=
  if p.dead then p
  else
    match ol with
    | none => p
    | some lane =>
      match lane.type with
      | .road =>
        if lane.obstacles.any (fun v => checkVehicleCollision p v) then playerDie p else p
      | .water =>
        match lane.obstacles.find? (fun lg => checkLogCollision p lg) with
        | some log =>
          let x' := p.x + log.speed
          let p' := { p with x := x', gridX := ⌊x' / (GRID_SIZE : ℚ)⌋ }
          if x' < ((PLAYER_SIZE / 2 : ℤ) : ℚ) ∨ ((SCREEN_WIDTH - PLAYER_SIZE / 2 : ℤ) : ℚ) < x' then
            playerDie p'
          else p'
        | none => playerDie p
      | .grass => p

/-- The stages of the frame pipeline before the death-handling block. -/
def preDeath (o : FrameOracle) (g : GameState) : GameState :=
  stepDeathZone (stepParticles (stepCollisions o
    (stepCleanup (stepGen o (stepProgress (stepLanes o
      (stepCamera (stepPlayer g))))))))

/-! ### Concrete scenario states

These states instantiate the theorems below on explicit inputs.  They are
reachable-shaped configurations: lanes on consecutive rows in descending
list order, the player between rows mid-hop where relevant. -/

/-- A stationary vehicle on the row-10 road lane (rows `[500, 550)`). -/
def vehicleBelow : Obstacle := { x := 400, y := 500, speed := 0, width := 80, height := 30 }

/-- A road lane one row below the animating player's lane. -/
def laneRoadBottom : Lane :=
  { y := 500, type := .road, obstacles := [vehicleBelow], spawnTimer := 0, spawnInterval := 60
    direction := 1, difficultyMultiplier := 1 }

/-- The grass lane the animating player is logically on (rows `[450, 500)`). -/
def laneGrassMid : Lane := grassLane 450

/-- A player mid-hop at `y = 490`, inside the `[450, 500)` row, whose hitbox
spatially overlaps `vehicleBelow` on the lane one row below. -/
def animatingPlayer : Player :=
  { x := 400, y := 490, gridX := 8, gridY := 9, targetX := 400, targetY := 475
    moving := true, dead := false, moveCooldown := 3 }

def stateC1 : GameState :=
  { startScreen := false, playing := true, gameOver := false, score := 0, highScore := 0
    bestProgress := 0, cameraY := 0, player := animatingPlayer
    lanes := [laneRoadBottom, laneGrassMid], particles := [], difficultyMultiplier := 1
    deathAnimationTimer := 0 }

/-- A player one frame into an upward hop from row 9 to row 8: the continuous
y is still over the row-9 lane while `moving` is true. -/
def hoppingPlayer : Player :=
  { x := 400, y := 470, gridX := 8, gridY := 8, targetX := 400, targetY := 425
    moving := true, dead := false, moveCooldown := 2 }

/-- A vehicle on the hopping player's current lane, overlapping their hitbox. -/
def vehicleC2 : Obstacle := { x := 380, y := 450, speed := 0, width := 100, height := 30 }

def laneRoadC2 : Lane :=
  { y := 450, type := .road, obstacles := [vehicleC2], spawnTimer := 0, spawnInterval := 100
    direction := 1, difficultyMultiplier := 1 }

def stateC2 : GameState :=
  { startScreen := false, playing := true, gameOver := false, score := 0, highScore := 0
    bestProgress := 0, cameraY := 0, player := hoppingPlayer, lanes := [laneRoadC2]
    particles := [], difficultyMultiplier := 1, deathAnimationTimer := 0 }

/-- A fresh session as produced by pressing SPACE on the start screen, with a
grass-only lane draw (the `u = 0` choice selects grass on every draw — one of
the possible seeds, matching the claim's "no obstacles present"). -/
def freshGame : GameState := restart oracle0.gen (initGame none oracle0.gen)

/-- Five accepted "up" moves, each followed by 12 frames — enough for the hop
animation to finish and the cooldown to expire, so every move is accepted. -/
def scenarioC3 : GameState :=
  Nat.iterate (fun s => Nat.iterate (gameUpdate oracle0) 12 (gameMove s 0 (-1))) 5 freshGame

/-- A generation draw whose uniform value `1/2` lands in the road band both
under the base weights `[2,3,2]` (`3.5 ∈ [2,5)`) and under the reduced
weights `[2,1,2]` (`2.5 ∈ [2,3)`). -/
def roadRand : GenRand := { u := 1/2, dir := 1, interval := 60 }

/-- An empty road lane, as `RoadLane(y, 1.0)` would create it with
direction 1 and interval 60. -/
def mkRoadLane (y : ℚ) : Lane :=
  { y := y, type := .road, obstacles := [], spawnTimer := 0, spawnInterval := 60
    direction := 1, difficultyMultiplier := 1 }

/-- A lane field whose top two lanes are road: the anti-repetition weight
reduction applies to the next draw. -/
def lanesC4 : List Lane := [grassLane 600, mkRoadLane 550, mkRoadLane 500]

/-- A minimal playing state: live player on a single grass lane. -/
def stateSimple : GameState :=
  { startScreen := false, playing := true, gameOver := false, score := 0, highScore := 0
    bestProgress := 0, cameraY := 0, player := playerNew 400 500, lanes := [grassLane 500]
    particles := [], difficultyMultiplier := 1, deathAnimationTimer := 0 }

/-- A playing state whose player has been dead for 61 frames with a score
beating the high score: the next frame ends the game and updates it. -/
def stateDead : GameState :=
  { startScreen := false, playing := true, gameOver := false, score := 100, highScore := 0
    bestProgress := -10, cameraY := 0, player := { playerNew 400 500 with dead := true }
    lanes := [grassLane 500], particles := [], difficultyMultiplier := 1
    deathAnimationTimer := 61 }

/-! ### Helper lemmas

`Rat.add`/`sub`/`mul`/`inv` are `@[irreducible]` in the library, which blocks
`decide`'s evaluator on concrete rational computations; restore default
reducibility locally so that concrete game states can be evaluated. -/

attribute [local semireducible] Rat.add Rat.sub Rat.mul Rat.inv

lemma playerUpdate_gridY (p : Player) : (playerUpdate p).gridY = p.gridY := by
  unfold playerUpdate
  dsimp only
  repeat' split
  all_goals rfl

lemma playerUpdate_gridX (p : Player) : (playerUpdate p).gridX = p.gridX := by
  unfold playerUpdate
  dsimp only
  repeat' split
  all_goals rfl

lemma playerUpdate_dead (p : Player) : (playerUpdate p).dead = p.dead := by
  unfold playerUpdate
  dsimp only
  repeat' split
  all_goals rfl

lemma stepPlayer_player (g : GameState) : (stepPlayer g).player = playerUpdate g.player := rfl

lemma stepPlayer_score (g : GameState) : (stepPlayer g).score = g.score := rfl

lemma stepPlayer_bestProgress (g : GameState) : (stepPlayer g).bestProgress = g.bestProgress := rfl

lemma stepPlayer_cameraY (g : GameState) : (stepPlayer g).cameraY = g.cameraY := rfl

lemma stepPlayer_highScore (g : GameState) : (stepPlayer g).highScore = g.highScore := rfl

lemma stepPlayer_gameOver (g : GameState) : (stepPlayer g).gameOver = g.gameOver := rfl

lemma stepCamera_player (g : GameState) : (stepCamera g).player = g.player := rfl

lemma stepCamera_score (g : GameState) : (stepCamera g).score = g.score := rfl

lemma stepCamera_bestProgress (g : GameState) : (stepCamera g).bestProgress = g.bestProgress := rfl

lemma stepCamera_highScore (g : GameState) : (stepCamera g).highScore = g.highScore := rfl

lemma stepCamera_gameOver (g : GameState) : (stepCamera g).gameOver = g.gameOver := rfl

lemma stepCamera_cameraY (g : GameState) :
    (stepCamera g).cameraY =
      if g.player.y - (SCREEN_HEIGHT : ℚ) * (2/3) < g.cameraY then
        g.player.y - (SCREEN_HEIGHT : ℚ) * (2/3)
      else g.cameraY := rfl

lemma stepCamera_cameraY_le (g : GameState) : (stepCamera g).cameraY ≤ g.cameraY := by
  rw [stepCamera_cameraY]
  split
  · exact le_of_lt (by assumption)
  · exact le_refl _

lemma stepLanes_player (o : FrameOracle) (g : GameState) : (stepLanes o g).player = g.player := rfl

lemma stepLanes_score (o : FrameOracle) (g : GameState) : (stepLanes o g).score = g.score := rfl

lemma stepLanes_bestProgress (o : FrameOracle) (g : GameState) :
    (stepLanes o g).bestProgress = g.bestProgress := rfl

lemma stepLanes_cameraY (o : FrameOracle) (g : GameState) : (stepLanes o g).cameraY = g.cameraY := rfl

lemma stepLanes_highScore (o : FrameOracle) (g : GameState) :
    (stepLanes o g).highScore = g.highScore := rfl

lemma stepLanes_gameOver (o : FrameOracle) (g : GameState) :
    (stepLanes o g).gameOver = g.gameOver := rfl

lemma stepProgress_cameraY (g : GameState) : (stepProgress g).cameraY = g.cameraY := by
  unfold stepProgress; split <;> rfl

lemma stepProgress_highScore (g : GameState) : (stepProgress g).highScore = g.highScore := by
  unfold stepProgress; split <;> rfl

lemma stepProgress_gameOver (g : GameState) : (stepProgress g).gameOver = g.gameOver := by
  unfold stepProgress; split <;> rfl

lemma stepProgress_player (g : GameState) : (stepProgress g).player = g.player := by
  unfold stepProgress; split <;> rfl

/-- The progress block either leaves score and best progress alone, or the
player's row is a strict improvement and both are recomputed from it. -/
lemma stepProgress_spec (g : GameState) :
    ((stepProgress g).bestProgress = g.bestProgress ∧ (stepProgress g).score = g.score)
    ∨ (g.player.gridY < g.bestProgress ∧ (stepProgress g).bestProgress = g.player.gridY
       ∧ (stepProgress g).score = |g.player.gridY| * 10) := by
  unfold stepProgress
  split
  · right; exact ⟨by assumption, rfl, rfl⟩
  · left; exact ⟨rfl, rfl⟩

lemma stepGen_player (o : FrameOracle) (g : GameState) : (stepGen o g).player = g.player := rfl

lemma stepGen_score (o : FrameOracle) (g : GameState) : (stepGen o g).score = g.score := rfl

lemma stepGen_bestProgress (o : FrameOracle) (g : GameState) :
    (stepGen o g).bestProgress = g.bestProgress := rfl

lemma stepGen_cameraY (o : FrameOracle) (g : GameState) : (stepGen o g).cameraY = g.cameraY := rfl

lemma stepGen_highScore (o : FrameOracle) (g : GameState) :
    (stepGen o g).highScore = g.highScore := rfl

lemma stepGen_gameOver (o : FrameOracle) (g : GameState) :
    (stepGen o g).gameOver = g.gameOver := rfl

lemma stepCleanup_player (g : GameState) : (stepCleanup g).player = g.player := rfl

lemma stepCleanup_score (g : GameState) : (stepCleanup g).score = g.score := rfl

lemma stepCleanup_bestProgress (g : GameState) : (stepCleanup g).bestProgress = g.bestProgress := rfl

lemma stepCleanup_cameraY (g : GameState) : (stepCleanup g).cameraY = g.cameraY := rfl

lemma stepCleanup_highScore (g : GameState) : (stepCleanup g).highScore = g.highScore := rfl

lemma stepCleanup_gameOver (g : GameState) : (stepCleanup g).gameOver = g.gameOver := rfl

lemma checkCollisions_score (o : ℕ → PartRand) (g : GameState) :
    (checkCollisions o g).score = g.score := by
  unfold checkCollisions
  dsimp only
  repeat' split
  all_goals rfl

lemma checkCollisions_bestProgress (o : ℕ → PartRand) (g : GameState) :
    (checkCollisions o g).bestProgress = g.bestProgress := by
  unfold checkCollisions
  dsimp only
  repeat' split
  all_goals rfl

lemma checkCollisions_cameraY (o : ℕ → PartRand) (g : GameState) :
    (checkCollisions o g).cameraY = g.cameraY := by
  unfold checkCollisions
  dsimp only
  repeat' split
  all_goals rfl

lemma checkCollisions_highScore (o : ℕ → PartRand) (g : GameState) :
    (checkCollisions o g).highScore = g.highScore := by
  unfold checkCollisions
  dsimp only
  repeat' split
  all_goals rfl

lemma checkCollisions_gameOver (o : ℕ → PartRand) (g : GameState) :
    (checkCollisions o g).gameOver = g.gameOver := by
  unfold checkCollisions
  dsimp only
  repeat' split
  all_goals rfl

lemma stepParticles_player (g : GameState) : (stepParticles g).player = g.player := rfl

lemma stepParticles_score (g : GameState) : (stepParticles g).score = g.score := rfl

lemma stepParticles_bestProgress (g : GameState) :
    (stepParticles g).bestProgress = g.bestProgress := rfl

lemma stepParticles_cameraY (g : GameState) : (stepParticles g).cameraY = g.cameraY := rfl

lemma stepParticles_highScore (g : GameState) : (stepParticles g).highScore = g.highScore := rfl

lemma stepParticles_gameOver (g : GameState) : (stepParticles g).gameOver = g.gameOver := rfl

lemma stepDeathZone_score (g : GameState) : (stepDeathZone g).score = g.score := by
  unfold stepDeathZone; split <;> rfl

lemma stepDeathZone_bestProgress (g : GameState) :
    (stepDeathZone g).bestProgress = g.bestProgress := by
  unfold stepDeathZone; split <;> rfl

lemma stepDeathZone_cameraY (g : GameState) : (stepDeathZone g).cameraY = g.cameraY := by
  unfold stepDeathZone; split <;> rfl

lemma stepDeathZone_highScore (g : GameState) : (stepDeathZone g).highScore = g.highScore := by
  unfold stepDeathZone; split <;> rfl

lemma stepDeathZone_gameOver (g : GameState) : (stepDeathZone g).gameOver = g.gameOver := by
  unfold stepDeathZone; split <;> rfl

lemma stepDeath_score (g : GameState) : (stepDeath g).score = g.score := by
  unfold stepDeath endGame
  dsimp only
  repeat' split
  all_goals rfl

lemma stepDeath_bestProgress (g : GameState) : (stepDeath g).bestProgress = g.bestProgress := by
  unfold stepDeath endGame
  dsimp only
  repeat' split
  all_goals rfl

lemma stepDeath_cameraY (g : GameState) : (stepDeath g).cameraY = g.cameraY := by
  unfold stepDeath endGame
  dsimp only
  repeat' split
  all_goals rfl

/-- The death-handling block either leaves the high score alone, or it has
just entered game over with a strictly better score, which becomes the new
high score. -/
lemma stepDeath_highScore_spec (g : GameState) :
    (stepDeath g).highScore = g.highScore
    ∨ ((stepDeath g).gameOver = true ∧ g.highScore < g.score
       ∧ (stepDeath g).highScore = g.score) := by
  unfold stepDeath endGame
  dsimp only
  split
  · split
    · by_cases hs : g.highScore < g.score
      · right
        refine ⟨rfl, hs, ?_⟩
        simp [hs]
      · left
        simp [hs]
    · left; rfl
  · left; rfl

lemma stepDeath_gameOver_of_ne (g : GameState)
    (h : (stepDeath g).highScore ≠ g.highScore) : (stepDeath g).gameOver = true := by
  rcases stepDeath_highScore_spec g with h1 | ⟨h1, _, _⟩
  · exact absurd h1 h
  · exact h1

lemma descending50_tail {a : Lane} {rest : List Lane}
    (h : descending50 (a :: rest) = true) : descending50 rest = true := by
  cases rest with
  | nil => rfl
  | cons b rs =>
    have h2 := h
    simp only [descending50, Bool.and_eq_true] at h2
    exact h2.2

lemma descending50_head {a b : Lane} {rs : List Lane}
    (h : descending50 (a :: b :: rs) = true) : b.y = a.y - (GRID_SIZE : ℚ) := by
  have h2 := h
  simp only [descending50, Bool.and_eq_true, decide_eq_true_eq] at h2
  exact h2.1

/-- Every lane after the head of a descending lane list is at least one full
row below it. -/
lemma descending50_rest_le {a : Lane} {rest : List Lane}
    (h : descending50 (a :: rest) = true) :
    ∀ l ∈ rest, l.y ≤ a.y - (GRID_SIZE : ℚ) := by
  induction rest generalizing a with
  | nil => intro l hl; cases hl
  | cons b rs ih =>
    intro l hl
    have hb : b.y = a.y - (GRID_SIZE : ℚ) := descending50_head h
    rcases List.mem_cons.mp hl with hl | hl
    · rw [hl]
      exact le_of_eq hb
    · have := ih (descending50_tail h) l hl
      rw [hb] at this
      have hpos : (0 : ℚ) < (GRID_SIZE : ℚ) := by norm_num [GRID_SIZE]
      linarith

/-- Correctness of `getLaneAtY` over a descending lane field whose bottom
row's interval is not strictly below `y`: the lane found (if any) is exactly
the unique lane whose half-open row interval `[lane.y, lane.y + GRID_SIZE)`
contains `y`, and if none is found then no lane's half-open interval
contains `y`. -/
lemma getLaneAtY_spec (y : ℚ) :
    ∀ lanes : List Lane, descending50 lanes = true →
    (∀ l0, lanes.head? = some l0 → y < l0.y + (GRID_SIZE : ℚ)) →
    ((getLaneAtY lanes y = none → ∀ l ∈ lanes, ¬(l.y ≤ y ∧ y < l.y + (GRID_SIZE : ℚ)))
     ∧ ∀ l, getLaneAtY lanes y = some l →
         l ∈ lanes ∧ l.y ≤ y ∧ y < l.y + (GRID_SIZE : ℚ) ∧
         ∀ l' ∈ lanes, l'.y ≤ y → y < l'.y + (GRID_SIZE : ℚ) → l' = l) := by
  intro lanes
  induction lanes with
  | nil =>
    intro _ _
    constructor
    · intro _ l hl
      cases hl
    · intro l hl
      simp [getLaneAtY] at hl
  | cons a rest ih =>
    intro hd hb
    have hba : y < a.y + (GRID_SIZE : ℚ) := hb a rfl
    by_cases hay : a.y ≤ y
    · -- the head lane matches (its closed interval contains y, and by `hb`
      -- even its half-open interval does)
      have hfind : getLaneAtY (a :: rest) y = some a := by
        unfold getLaneAtY
        apply List.find?_cons_of_pos
        simp only [Bool.and_eq_true, decide_eq_true_eq]
        exact ⟨hay, le_of_lt hba⟩
      constructor
      · intro h
        rw [hfind] at h
        cases h
      · intro l hl
        rw [hfind] at hl
        injection hl with hl
        subst hl
        refine ⟨List.mem_cons_self a rest, hay, hba, ?_⟩
        intro l' hl' h1 h2
        rcases List.mem_cons.mp hl' with hl' | hl'
        · exact hl'
        · exfalso
          have hle : l'.y ≤ a.y - (GRID_SIZE : ℚ) := descending50_rest_le hd l' hl'
          have : y < a.y := by linarith
          linarith
    · -- the head lane is strictly below `y`'s row; recurse into the tail
      push_neg at hay
      have hfind : getLaneAtY (a :: rest) y = getLaneAtY rest y := by
        unfold getLaneAtY
        apply List.find?_cons_of_neg
        simp only [Bool.and_eq_true, decide_eq_true_eq, not_and, not_le]
        intro h
        exact absurd h (not_le.mpr hay)
      have hbrest : ∀ l0, rest.head? = some l0 → y < l0.y + (GRID_SIZE : ℚ) := by
        intro l0 h0
        cases rest with
        | nil => cases h0
        | cons b rs =>
          injection h0 with h0
          subst h0
          have := descending50_head hd
          rw [this]
          linarith
      have hrest := ih (descending50_tail hd) hbrest
      rw [hfind]
      constructor
      · intro h l hl
        rcases List.mem_cons.mp hl with hl | hl
        · subst hl
          intro hcontra
          exact absurd hcontra.1 (not_le.mpr hay)
        · exact hrest.1 h l hl
      · intro l hl
        obtain ⟨hmem, h1, h2, huniq⟩ := hrest.2 l hl
        refine ⟨List.mem_cons_of_mem a hmem, h1, h2, ?_⟩
        intro l' hl' h1' h2'
        rcases List.mem_cons.mp hl' with hl' | hl'
        · subst hl'
          exact absurd h1' (not_le.mpr hay)
        · exact huniq l' hl' h1' h2'

lemma checkCollisions_player (o : ℕ → PartRand) (g : GameState) :
    (checkCollisions o g).player = collidePlayer g.player (getLaneAtY g.lanes g.player.y) := by
  unfold checkCollisions collidePlayer
  dsimp only
  repeat' split
  all_goals rfl

lemma checkCollisions_of_none (o : ℕ → PartRand) (g : GameState)
    (h : getLaneAtY g.lanes g.player.y = none) : checkCollisions o g = g := by
  unfold checkCollisions
  rw [h]
  split <;> rfl

lemma stepCollisions_score (o : FrameOracle) (g : GameState) :
    (stepCollisions o g).score = g.score := checkCollisions_score _ _

lemma stepCollisions_bestProgress (o : FrameOracle) (g : GameState) :
    (stepCollisions o g).bestProgress = g.bestProgress := checkCollisions_bestProgress _ _

lemma stepCollisions_cameraY (o : FrameOracle) (g : GameState) :
    (stepCollisions o g).cameraY = g.cameraY := checkCollisions_cameraY _ _

lemma stepCollisions_highScore (o : FrameOracle) (g : GameState) :
    (stepCollisions o g).highScore = g.highScore := checkCollisions_highScore _ _

lemma stepCollisions_gameOver (o : FrameOracle) (g : GameState) :
    (stepCollisions o g).gameOver = g.gameOver := checkCollisions_gameOver _ _

lemma gameUpdate_eq (o : FrameOracle) (g : GameState) :
    gameUpdate o g = if ¬g.playing ∨ g.gameOver then g else stepDeath (preDeath o g) := rfl

lemma preDeath_highScore (o : FrameOracle) (g : GameState) :
    (preDeath o g).highScore = g.highScore := by
  unfold preDeath
  rw [stepDeathZone_highScore, stepParticles_highScore, stepCollisions_highScore,
    stepCleanup_highScore, stepGen_highScore, stepProgress_highScore, stepLanes_highScore,
    stepCamera_highScore, stepPlayer_highScore]

lemma preDeath_gameOver (o : FrameOracle) (g : GameState) :
    (preDeath o g).gameOver = g.gameOver := by
  unfold preDeath
  rw [stepDeathZone_gameOver, stepParticles_gameOver, stepCollisions_gameOver,
    stepCleanup_gameOver, stepGen_gameOver, stepProgress_gameOver, stepLanes_gameOver,
    stepCamera_gameOver, stepPlayer_gameOver]

lemma preDeath_cameraY (o : FrameOracle) (g : GameState) :
    (preDeath o g).cameraY = (stepCamera (stepPlayer g)).cameraY := by
  unfold preDeath
  rw [stepDeathZone_cameraY, stepParticles_cameraY, stepCollisions_cameraY,
    stepCleanup_cameraY, stepGen_cameraY, stepProgress_cameraY, stepLanes_cameraY]

lemma preDeath_bestProgress (o : FrameOracle) (g : GameState) :
    (preDeath o g).bestProgress =
      (stepProgress (stepLanes o (stepCamera (stepPlayer g)))).bestProgress := by
  unfold preDeath
  rw [stepDeathZone_bestProgress, stepParticles_bestProgress, stepCollisions_bestProgress,
    stepCleanup_bestProgress, stepGen_bestProgress]

lemma preDeath_score (o : FrameOracle) (g : GameState) :
    (preDeath o g).score =
      (stepProgress (stepLanes o (stepCamera (stepPlayer g)))).score := by
  unfold preDeath
  rw [stepDeathZone_score, stepParticles_score, stepCollisions_score,
    stepCleanup_score, stepGen_score]

/-- Within a frame, score and best progress either stay put or are recomputed
from a strictly improved player row. -/
lemma gameUpdate_progress_spec (o : FrameOracle) (g : GameState) :
    ((gameUpdate o g).bestProgress = g.bestProgress ∧ (gameUpdate o g).score = g.score)
    ∨ (g.player.gridY < g.bestProgress ∧ (gameUpdate o g).bestProgress = g.player.gridY
       ∧ (gameUpdate o g).score = |g.player.gridY| * 10) := by
  rw [gameUpdate_eq]
  split
  · left; exact ⟨rfl, rfl⟩
  · rw [stepDeath_bestProgress, stepDeath_score, preDeath_bestProgress, preDeath_score]
    have hgy : (stepLanes o (stepCamera (stepPlayer g))).player.gridY = g.player.gridY := by
      rw [stepLanes_player, stepCamera_player, stepPlayer_player, playerUpdate_gridY]
    have hbp : (stepLanes o (stepCamera (stepPlayer g))).bestProgress = g.bestProgress := by
      rw [stepLanes_bestProgress, stepCamera_bestProgress, stepPlayer_bestProgress]
    have hsc : (stepLanes o (stepCamera (stepPlayer g))).score = g.score := by
      rw [stepLanes_score, stepCamera_score, stepPlayer_score]
    rcases stepProgress_spec (stepLanes o (stepCamera (stepPlayer g))) with ⟨h1, h2⟩ | ⟨h1, h2, h3⟩
    · left
      rw [h1, h2, hbp, hsc]
      exact ⟨rfl, rfl⟩
    · right
      rw [hgy, hbp] at h1
      rw [h2, h3, hgy]
      exact ⟨h1, rfl, rfl⟩

lemma gameUpdate_cameraY_le (o : FrameOracle) (g : GameState) :
    (gameUpdate o g).cameraY ≤ g.cameraY := by
  rw [gameUpdate_eq]
  split
  · exact le_refl _
  · rw [stepDeath_cameraY, preDeath_cameraY]
    have := stepCamera_cameraY_le (stepPlayer g)
    rw [stepPlayer_cameraY] at this
    exact this

lemma gameUpdate_highScore_spec (o : FrameOracle) (g : GameState) :
    (gameUpdate o g).highScore = g.highScore
    ∨ ((gameUpdate o g).gameOver = true ∧ g.gameOver = false
       ∧ g.highScore < (gameUpdate o g).score
       ∧ (gameUpdate o g).highScore = (gameUpdate o g).score) := by
  rw [gameUpdate_eq]
  split
  · left; rfl
  · rename_i hcond
    push_neg at hcond
    rcases stepDeath_highScore_spec (preDeath o g) with h1 | ⟨h1, h2, h3⟩
    · left
      rw [h1, preDeath_highScore]
    · right
      have hgo : g.gameOver = false := by
        rcases hcond with ⟨_, hgo⟩
        simpa using hgo
      rw [preDeath_highScore] at h2
      refine ⟨h1, hgo, ?_, ?_⟩
      · rw [stepDeath_score]
        exact h2
      · rw [stepDeath_score]
        exact h3

/-! ### Decimal round-trip lemmas for the high-score file -/

lemma digitsVal_append (cs : List ℕ) (c : ℕ) :
    digitsVal (cs ++ [c]) = digitsVal cs * 10 + (c - 48) := by
  simp [digitsVal, List.foldl_append]

lemma digitsVal_rev_map (L : List ℕ) :
    digitsVal ((L.map (fun d => d + 48)).reverse) = Nat.ofDigits 10 L := by
  induction L with
  | nil => rfl
  | cons d L ih =>
    rw [List.map_cons, List.reverse_cons, digitsVal_append, ih, Nat.ofDigits_cons]
    omega

lemma natCodes_all (n : ℕ) : (natCodes n).all isDigitCode = true := by
  rcases eq_or_ne n 0 with h | h
  · subst h; rfl
  · unfold natCodes
    rw [if_neg h, List.all_eq_true]
    intro c hc
    rw [List.mem_map] at hc
    obtain ⟨d, hd, rfl⟩ := hc
    rw [List.mem_reverse] at hd
    have hds : d < 10 := Nat.digits_lt_base (by norm_num) hd
    unfold isDigitCode
    simp only [Bool.and_eq_true, decide_eq_true_eq]
    omega

lemma natCodes_ne_nil (n : ℕ) : natCodes n ≠ [] := by
  rcases eq_or_ne n 0 with h | h
  · subst h; simp [natCodes]
  · unfold natCodes
    rw [if_neg h]
    simp only [ne_eq, List.map_eq_nil_iff, List.reverse_eq_nil_iff]
    exact Nat.digits_ne_nil_iff_ne_zero.mpr h

lemma parseNatCodes_natCodes (n : ℕ) : parseNatCodes (natCodes n) = some n := by
  rcases eq_or_ne n 0 with h | h
  · subst h; rfl
  · unfold parseNatCodes
    rw [if_pos ⟨natCodes_ne_nil n, natCodes_all n⟩]
    congr 1
    unfold natCodes
    rw [if_neg h, List.map_reverse, digitsVal_rev_map, Nat.ofDigits_digits]

lemma pythonInt_intCodes (n : ℤ) : pythonInt (intCodes n) = some n := by
  unfold intCodes
  split
  · -- negative: a '-' (code 45) followed by the digits of `natAbs`
    rename_i hneg
    unfold pythonInt
    dsimp only
    rw [if_pos rfl]
    rw [parseNatCodes_natCodes]
    have hval : -((n.natAbs : ℤ)) = n := by omega
    simpa using hval
  · -- nonnegative: plain digits, whose head is a digit code (≥ 48), so
    -- neither sign branch fires
    rename_i hpos
    rcases hcs : natCodes n.toNat with _ | ⟨c, cs⟩
    · exact absurd hcs (natCodes_ne_nil n.toNat)
    · have hall := natCodes_all n.toNat
      rw [hcs, List.all_cons, Bool.and_eq_true] at hall
      have hdig := hall.1
      unfold isDigitCode at hdig
      rw [Bool.and_eq_true, decide_eq_true_eq, decide_eq_true_eq] at hdig
      unfold pythonInt
      dsimp only
      rw [if_neg (by omega), if_neg (by omega), ← hcs,
        parseNatCodes_natCodes]
      have hval : ((n.toNat : ℤ)) = n := by omega
      simpa using hval


lemma playerMove_gridX_bounds (p : Player) (dx dy : ℤ)
    (h0 : 0 ≤ p.gridX) (h1 : p.gridX ≤ SCREEN_WIDTH / GRID_SIZE - 1) :
    0 ≤ (playerMove p dx dy).gridX ∧ (playerMove p dx dy).gridX ≤ SCREEN_WIDTH / GRID_SIZE - 1 := by
  unfold playerMove
  split
  · exact ⟨h0, h1⟩
  · dsimp only
    refine ⟨le_max_left 0 _, max_le (by decide) (min_le_left _ _)⟩

/-! ### The claims -/

/-- C1: for every frame in which collision resolution runs, the engine tests
the player only against the obstacles of the single lane whose row interval
`[y, y + GRID_SIZE)` contains the player's continuous y (over a lane field of
consecutive descending rows whose bottom row interval is not strictly above
the player); obstacles of other lanes are never inspected — the outcome for
the player depends only on the player and the found lane — and with no lane
found the frame is a collision no-op.  In particular a lethal vehicle on the
lane one row below an animating player, even one spatially overlapping the
player's hitbox, never kills them (`stateC1`). -/
theorem C1_collision_current_lane_only (po : ℕ → PartRand) (g g' : GameState)
    (hdesc : descending50 g.lanes = true)
    (hhead : ∀ l0, g.lanes.head? = some l0 → g.player.y < l0.y + (GRID_SIZE : ℚ)) :
    (getLaneAtY g.lanes g.player.y = none → checkCollisions po g = g)
    ∧ (∀ l, getLaneAtY g.lanes g.player.y = some l →
        l ∈ g.lanes ∧ l.y ≤ g.player.y ∧ g.player.y < l.y + (GRID_SIZE : ℚ)
        ∧ ∀ l' ∈ g.lanes, l'.y ≤ g.player.y → g.player.y < l'.y + (GRID_SIZE : ℚ) → l' = l)
    ∧ (g'.player = g.player →
        getLaneAtY g'.lanes g'.player.y = getLaneAtY g.lanes g.player.y →
        (checkCollisions po g').player = (checkCollisions po g).player)
    ∧ ((checkCollisions oracle0.part stateC1).player.dead = false
       ∧ checkVehicleCollision stateC1.player vehicleBelow = true
       ∧ stateC1.player.moving = true
       ∧ getLaneAtY stateC1.lanes stateC1.player.y = some laneGrassMid) := by
  refine ⟨checkCollisions_of_none po g,
    (getLaneAtY_spec g.player.y g.lanes hdesc hhead).2, ?_, ?_⟩
  · intro hp hl
    rw [checkCollisions_player, checkCollisions_player, hl, hp]
  · exact ⟨by decide, by decide, rfl, by decide⟩

/-- Witness for C1 at the concrete state `stateC1`. -/
theorem C1_witness :
    laneGrassMid ∈ stateC1.lanes ∧ laneGrassMid.y ≤ stateC1.player.y
    ∧ stateC1.player.y < laneGrassMid.y + (GRID_SIZE : ℚ)
    ∧ (checkCollisions oracle0.part stateC1).player.dead = false := by
  have h := C1_collision_current_lane_only oracle0.part stateC1 stateC1 (by decide)
    (by
      intro l0 h0
      rw [show stateC1.lanes.head? = some laneRoadBottom from rfl] at h0
      cases h0
      decide)
  obtain ⟨-, hsome, -, hconc⟩ := h
  have h2 := hsome laneGrassMid (by decide)
  exact ⟨h2.1, h2.2.1, h2.2.2.1, hconc.1⟩

/-- C2 (code bug): the source's header comment promises "collisions don't
check during movement animation", and the claim repeats it, but
`checkCollisions` has no `moving` guard: at `stateC2` a hop is in progress
(`moving = true`) and the frame's collision step still kills the player from
the current lane's vehicle. -/
theorem C2_collision_runs_while_moving :
    stateC2.player.moving = true
    ∧ (gameUpdate oracle0 stateC2).player.dead = true
    ∧ (gameUpdate oracle0 stateC2).player.moving = true := by
  refine ⟨rfl, by decide, by decide⟩

set_option maxRecDepth 40000 in
/-- C3 counterexample: the claimed scenario — fresh session, bottom-center
spawn, no obstacles, 5 accepted "up" moves (each followed by updates; the
final `gridY = 5` certifies all five were accepted, each decrementing the
row) — ends with score 0, not `5 * 10 = 50`. -/
theorem C3_counterexample_five_up_moves :
    scenarioC3.player.gridY = 5 ∧ scenarioC3.player.dead = false
    ∧ scenarioC3.score = 0 ∧ scenarioC3.score ≠ 5 * 10 := by decide

set_option maxRecDepth 40000 in
/-- C3 (amended): in the claimed scenario the player survives but the score
stays 0 — `bestProgress` starts at 0 while the spawn row is 10, so the score
cannot change while the player's row index is still nonnegative; points only
start accruing below row 0. -/
theorem C3_amended_score_stays_zero :
    (scenarioC3.player.dead = false ∧ scenarioC3.score = 0 ∧ scenarioC3.player.gridY = 5)
    ∧ (∀ o g, g.bestProgress = 0 → 0 ≤ g.player.gridY →
        (gameUpdate o g).score = g.score ∧ (gameUpdate o g).bestProgress = 0) := by
  constructor
  · decide
  · intro o g h0 hge
    rcases gameUpdate_progress_spec o g with ⟨h1, h2⟩ | ⟨h1, _, _⟩
    · rw [h1, h0] at *
      exact ⟨h2, h1⟩
    · rw [h0] at h1
      exact absurd h1 (not_lt.mpr hge)

/-- Witness for C3's amended general part at `stateSimple`. -/
theorem C3_witness :
    (gameUpdate oracle0 stateSimple).score = stateSimple.score
    ∧ (gameUpdate oracle0 stateSimple).bestProgress = 0 :=
  C3_amended_score_stays_zero.2 oracle0 stateSimple (by decide) (by decide)

/-- C4 counterexample: with the achievable uniform draw `1/2` on every
choice, the initial population is 3 grass lanes followed by 20 consecutive
road lanes — far more than 2 consecutive road lanes, on adjacent rows. -/
theorem C4_counterexample_twenty_roads :
    (initLanes 1 (fun _ => roadRand)).map Lane.type
      = List.replicate 3 LaneType.grass ++ List.replicate 20 LaneType.road := by decide

/-- C4 (amended): the anti-repetition adjustment of forward generation only
reduces the road weight from 3 to 1 (and water from 2 to 1) when at least 2
of the last 3 lanes have that type; it does not prevent a third consecutive
lane — from a field topped by two road lanes, the `1/2` draw still generates
road lanes, giving 3 (and more) consecutive roads — and the initial
population applies no adjustment at all. -/
theorem C4_amended_weights_reduce_only (recent : List LaneType)
    (h : 2 ≤ recent.count LaneType.road) :
    adjustedWeights recent
      = [2, 1, if 2 ≤ recent.count LaneType.water then 1 else 2]
    ∧ (generateNewLanesList (fun _ => roadRand) 0 1 lanesC4).map Lane.type
        = [LaneType.grass, LaneType.road, LaneType.road] ++ List.replicate 15 LaneType.road := by
  constructor
  · unfold adjustedWeights
    rw [if_pos h]
  · decide

/-- Witness for C4's amended claim on a recent-history with two roads. -/
theorem C4_witness :
    adjustedWeights [LaneType.road, LaneType.road, LaneType.grass] = [2, 1, 2] := by
  have h := C4_amended_weights_reduce_only [LaneType.road, LaneType.road, LaneType.grass]
    (by decide)
  rw [h.1]
  decide

/-- C5: score is always the fixed multiple 10 of `|bestProgress|` (an
invariant established by `restart` and preserved by every frame),
`bestProgress` never increases, and hence score never decreases — it is a
function of best progress, not of the player's current position. -/
theorem C5_score_is_ten_times_best_progress :
    (∀ o g, (gameUpdate o g).bestProgress ≤ g.bestProgress)
    ∧ (∀ o g, g.score = 10 * |g.bestProgress| → g.bestProgress ≤ 0 →
        (gameUpdate o g).score = 10 * |(gameUpdate o g).bestProgress|
        ∧ (gameUpdate o g).bestProgress ≤ 0
        ∧ g.score ≤ (gameUpdate o g).score)
    ∧ (∀ gen g, (restart gen g).score = 10 * |(restart gen g).bestProgress|
        ∧ (restart gen g).bestProgress = 0) := by
  refine ⟨?_, ?_, ?_⟩
  · intro o g
    rcases gameUpdate_progress_spec o g with ⟨h1, _⟩ | ⟨h1, h2, _⟩
    · rw [h1]
    · rw [h2]
      exact le_of_lt h1
  · intro o g hs hb
    rcases gameUpdate_progress_spec o g with ⟨h1, h2⟩ | ⟨h1, h2, h3⟩
    · rw [h1, h2]
      exact ⟨hs, hb, le_refl _⟩
    · have hlt : g.player.gridY < 0 := lt_of_lt_of_le h1 hb
      rw [h2, h3]
      refine ⟨mul_comm _ _, le_of_lt hlt, ?_⟩
      rw [hs, abs_of_nonpos hb, abs_of_nonpos (le_of_lt hlt)]
      linarith
  · intro gen g
    exact ⟨show (0 : ℤ) = 10 * |(0 : ℤ)| by decide, rfl⟩

/-- Witness for C5's invariant-preservation part at `stateSimple`. -/
theorem C5_witness :
    (gameUpdate oracle0 stateSimple).score
        = 10 * |(gameUpdate oracle0 stateSimple).bestProgress|
    ∧ (gameUpdate oracle0 stateSimple).bestProgress ≤ 0
    ∧ stateSimple.score ≤ (gameUpdate oracle0 stateSimple).score :=
  C5_score_is_ten_times_best_progress.2.1 oracle0 stateSimple (by decide) (by decide)

/-- C6: within a life the camera never moves down — every frame's camera y is
at most the previous one — and precisely: `updateCamera` sets the camera to
the target "player y minus two-thirds of the screen height" exactly when that
target is strictly smaller than the current value, and leaves it unchanged
otherwise (stated both for the camera step itself and through a whole playing
frame, where the player has first been animated by `Player.update`). -/
theorem C6_camera_monotone :
    (∀ o g, (gameUpdate o g).cameraY ≤ g.cameraY)
    ∧ (∀ g : GameState, (stepCamera g).cameraY =
        if g.player.y - (SCREEN_HEIGHT : ℚ) * (2/3) < g.cameraY
        then g.player.y - (SCREEN_HEIGHT : ℚ) * (2/3) else g.cameraY)
    ∧ (∀ o g, g.playing = true → g.gameOver = false →
        (gameUpdate o g).cameraY =
          if (playerUpdate g.player).y - (SCREEN_HEIGHT : ℚ) * (2/3) < g.cameraY
          then (playerUpdate g.player).y - (SCREEN_HEIGHT : ℚ) * (2/3) else g.cameraY) := by
  refine ⟨gameUpdate_cameraY_le, fun g => stepCamera_cameraY g, ?_⟩
  intro o g hp hg
  rw [gameUpdate_eq, if_neg (by simp [hp, hg]), stepDeath_cameraY, preDeath_cameraY,
    stepCamera_cameraY, stepPlayer_player, stepPlayer_cameraY]

/-- Witness for C6's playing-frame characterization at `stateSimple`. -/
theorem C6_witness :
    (gameUpdate oracle0 stateSimple).cameraY =
      if (playerUpdate stateSimple.player).y - (SCREEN_HEIGHT : ℚ) * (2/3)
          < stateSimple.cameraY
      then (playerUpdate stateSimple.player).y - (SCREEN_HEIGHT : ℚ) * (2/3)
      else stateSimple.cameraY :=
  C6_camera_monotone.2.2 oracle0 stateSimple rfl rfl

/-- C7: an accepted move clamps `gridX` into
`[0, SCREEN_WIDTH // GRID_SIZE - 1] = [0, 15]` and a rejected move leaves it
unchanged, so along every sequence of `move` calls from the spawned player
`gridX` stays within the playable columns. -/
theorem C7_gridX_stays_in_bounds :
    (∀ (p : Player) (dx dy : ℤ), 0 ≤ p.gridX → p.gridX ≤ SCREEN_WIDTH / GRID_SIZE - 1 →
      0 ≤ (playerMove p dx dy).gridX
      ∧ (playerMove p dx dy).gridX ≤ SCREEN_WIDTH / GRID_SIZE - 1)
    ∧ (∀ ms : List (ℤ × ℤ),
        0 ≤ (ms.foldl (fun q d => playerMove q d.1 d.2)
            (playerNew (SCREEN_WIDTH / 2) (SCREEN_HEIGHT - GRID_SIZE * 2))).gridX
        ∧ (ms.foldl (fun q d => playerMove q d.1 d.2)
            (playerNew (SCREEN_WIDTH / 2) (SCREEN_HEIGHT - GRID_SIZE * 2))).gridX
          ≤ SCREEN_WIDTH / GRID_SIZE - 1) := by
  have main : ∀ (ms : List (ℤ × ℤ)) (p : Player),
      0 ≤ p.gridX → p.gridX ≤ SCREEN_WIDTH / GRID_SIZE - 1 →
      0 ≤ (ms.foldl (fun q d => playerMove q d.1 d.2) p).gridX
      ∧ (ms.foldl (fun q d => playerMove q d.1 d.2) p).gridX
        ≤ SCREEN_WIDTH / GRID_SIZE - 1 := by
    intro ms
    induction ms with
    | nil => intro p h0 h1; exact ⟨h0, h1⟩
    | cons d ms ih =>
      intro p h0 h1
      rw [List.foldl_cons]
      exact ih _ (playerMove_gridX_bounds p d.1 d.2 h0 h1).1
        (playerMove_gridX_bounds p d.1 d.2 h0 h1).2
  exact ⟨playerMove_gridX_bounds, fun ms => main ms _ (by decide) (by decide)⟩

/-- Witness for C7 at the spawned player. -/
theorem C7_witness :
    0 ≤ (playerMove (playerNew 400 500) 1 0).gridX
    ∧ (playerMove (playerNew 400 500) 1 0).gridX ≤ SCREEN_WIDTH / GRID_SIZE - 1 :=
  C7_gridX_stays_in_bounds.1 (playerNew 400 500) 1 0 (by decide) (by decide)

/-- C8: a move requested while animating, dead, or cooling down is a complete
no-op — the entire player record, every field included, is unchanged. -/
theorem C8_rejected_move_noop (p : Player) (dx dy : ℤ)
    (h : p.moving = true ∨ p.dead = true ∨ 0 < p.moveCooldown) :
    playerMove p dx dy = p := by
  unfold playerMove
  rw [if_pos h]

/-- Witness for C8 on a moving player. -/
theorem C8_witness :
    playerMove { playerNew 400 500 with moving := true } 0 (-1)
      = { playerNew 400 500 with moving := true } :=
  C8_rejected_move_noop _ 0 (-1) (Or.inl rfl)

/-- C9: saving any integer high score and loading it back yields the same
integer; loading with the file missing yields 0; loading content that does
not parse as an integer yields 0 (no error surfaced — the source's
`except: return 0`). -/
theorem C9_highscore_roundtrip :
    (∀ n : ℤ, loadHighScore (saveHighScore n) = n)
    ∧ loadHighScore none = 0
    ∧ (∀ cs : List ℕ, pythonInt cs = none → loadHighScore (some cs) = 0) := by
  refine ⟨?_, rfl, ?_⟩
  · intro n
    show (pythonInt (intCodes n)).getD 0 = n
    rw [pythonInt_intCodes]
    rfl
  · intro cs h
    show (pythonInt cs).getD 0 = 0
    rw [h]
    rfl

/-- Witness for C9 at 1234, −57 and the unparsable content "abc". -/
theorem C9_witness :
    loadHighScore (saveHighScore 1234) = 1234
    ∧ loadHighScore (saveHighScore (-57)) = -57
    ∧ loadHighScore (some [97, 98, 99]) = 0 :=
  ⟨C9_highscore_roundtrip.1 1234, C9_highscore_roundtrip.1 (-57),
   C9_highscore_roundtrip.2.2 [97, 98, 99] (by decide)⟩

/-- C10: `restart` keeps the in-memory high score and reinitializes every
other session field (score, best progress, camera, difficulty, player,
particles, death timer, lane field, state tags); `endGame` is the only
writer of the high score, taking it to the score exactly when the score
strictly exceeds it; and a frame changes the high score only on the
transition into game over, to the (strictly greater) final score. -/
theorem C10_highscore_survives_restart :
    (∀ gen g, (restart gen g).highScore = g.highScore)
    ∧ (∀ gen g, (restart gen g).score = 0 ∧ (restart gen g).bestProgress = 0
        ∧ (restart gen g).cameraY = 0 ∧ (restart gen g).difficultyMultiplier = 1
        ∧ (restart gen g).player = playerNew (SCREEN_WIDTH / 2) (SCREEN_HEIGHT - GRID_SIZE * 2)
        ∧ (restart gen g).particles = [] ∧ (restart gen g).deathAnimationTimer = 0
        ∧ (restart gen g).lanes = initLanes 1 gen
        ∧ (restart gen g).playing = true ∧ (restart gen g).gameOver = false
        ∧ (restart gen g).startScreen = false)
    ∧ (∀ g, (endGame g).gameOver = true
        ∧ (endGame g).highScore = if g.highScore < g.score then g.score else g.highScore)
    ∧ (∀ o g, (gameUpdate o g).highScore ≠ g.highScore →
        (gameUpdate o g).gameOver = true ∧ g.gameOver = false
        ∧ g.highScore < (gameUpdate o g).score
        ∧ (gameUpdate o g).highScore = (gameUpdate o g).score) := by
  refine ⟨fun gen g => rfl,
    fun gen g => ⟨rfl, rfl, rfl, rfl, rfl, rfl, rfl, rfl, rfl, rfl, rfl⟩,
    fun g => ⟨rfl, rfl⟩, ?_⟩
  intro o g hne
  rcases gameUpdate_highScore_spec o g with h | h
  · exact absurd h hne
  · exact h

/-- Witness for C10's game-over transition at `stateDead`. -/
theorem C10_witness :
    (gameUpdate oracle0 stateDead).gameOver = true ∧ stateDead.gameOver = false
    ∧ stateDead.highScore < (gameUpdate oracle0 stateDead).score
    ∧ (gameUpdate oracle0 stateDead).highScore = (gameUpdate oracle0 stateDead).score :=
  C10_highscore_survives_restart.2.2.2 oracle0 stateDead (by decide)

end CrossyRoad
